import Mathlib

/-!
Verification development for the tensor-reconstruction ("rebuild") helpers and
the cross-thread exception capture/reraise protocol of torch/_utils.py.

The Python source is shallowly embedded: each rebuild helper becomes a pure
Lean function over explicit record types; the process-wide pending-validation
list becomes an explicit state argument threaded through the sparse rebuild
and drain operations; raising an exception becomes returning an `Except`
error value (or, for `reraise`, returning a `RaisedError` value, since
`reraise` never returns normally).  Native torch primitives that are not part
of the reviewed file (tensor allocation, the sparse argument validators,
trace formatting) are modelled from the specification and marked as such in
their doc comments.
-/

set_option maxHeartbeats 1000000

/-- Element data types of tensors and storages (the subset exercised by the
rebuild helpers): torch.float32 (torch.float), torch.float64 (torch.double),
torch.int64 (torch.long) and the quantized storage dtypes. -/
inductive DType
  | float32
  | float64
  | int64
  | quint8
  | qint8
deriving DecidableEq, Repr

/-- Integral dtypes, in the sense used for quantization zero-points. -/
def DType.isIntegral : DType → Bool
  | .int64 => true
  | .quint8 => true
  | .qint8 => true
  | _ => false

/-- Floating-point dtypes. -/
def DType.isFloatingPoint : DType → Bool
  | .float32 => true
  | .float64 => true
  | _ => false

/-- Device tag carried by storages and tensors. -/
inductive Device
  | cpu
  | cuda (index : Nat)
  | meta
deriving DecidableEq, Repr

/-- Tensor memory layouts relevant to _rebuild_sparse_tensor and
_validate_loaded_sparse_tensors: the COO layout, the four compressed sparse
layouts, and the dense (strided) layout standing for any non-sparse layout. -/
inductive Layout
  | sparse_coo
  | sparse_csr
  | sparse_csc
  | sparse_bsr
  | sparse_bsc
  | strided
deriving DecidableEq, Repr

/-- Python str() of a layout object, as interpolated into error messages. -/
def Layout.pyName : Layout → String
  | .sparse_coo => "torch.sparse_coo"
  | .sparse_csr => "torch.sparse_csr"
  | .sparse_csc => "torch.sparse_csc"
  | .sparse_bsr => "torch.sparse_bsr"
  | .sparse_bsc => "torch.sparse_bsc"
  | .strided => "torch.strided"

/-- Quantization scheme tags (torch.qscheme values). -/
inductive QScheme
  | per_tensor_affine
  | per_channel_affine
  | per_channel_affine_float_qparams
  | per_tensor_symmetric
  | per_channel_symmetric
deriving DecidableEq, Repr

/-- Python str() of a qscheme object, as interpolated into error messages. -/
def QScheme.pyName : QScheme → String
  | .per_tensor_affine => "torch.per_tensor_affine"
  | .per_channel_affine => "torch.per_channel_affine"
  | .per_channel_affine_float_qparams => "torch.per_channel_affine_float_qparams"
  | .per_tensor_symmetric => "torch.per_tensor_symmetric"
  | .per_channel_symmetric => "torch.per_channel_symmetric"

/-- Errors the embedded fragment can raise, returned through `Except`.
`structuralError` stands for the error raised by the native sparse argument
validators (the spec's StructuralError); `unpackMismatch` stands for Python's
ValueError on a mismatched tuple unpacking (a modelling boundary: no claim
depends on mismatched layout/payload combinations). -/
inductive PyError
  | runtimeError (msg : String)
  | notImplementedError (msg : String)
  | structuralError
  | unpackMismatch
deriving DecidableEq, Repr

/-- An untyped storage: a raw buffer with a device tag and a byte count. -/
structure UntypedStorage where
  device : Device
  nbytes : Nat
deriving DecidableEq, Repr

/-- A typed storage (the `storage` argument of the rebuild helpers): an
untyped storage together with a dtype tag.  `storage._untyped_storage` is the
`untyped` field; `storage.device` forwards to the untyped storage's device. -/
structure TypedStorage where
  dtype : DType
  untyped : UntypedStorage
deriving DecidableEq, Repr

/-- TypedStorage.device property: the device of the underlying buffer. -/
def TypedStorage.device (s : TypedStorage) : Device :=
  s.untyped.device

/-- The serialized-metadata map applied by set_tensor_metadata: a
dict[string, bool] of tensor bit flags (conj/neg). -/
abbrev TensorMetadata := List (String × Bool)

/-- Backward-hooks field: an opaque value carried verbatim and never
invoked; modelled as a list of hook names. -/
abbrev BackwardHooks := List String

/-- A dense tensor as observed by the rebuild helpers: dtype/device tags,
the bound storage region (offset/size/stride), the gradient-tracking flag,
the carried hooks field, and the metadata bits.  `metadata = none` means the
bits are exactly as allocated (the metadata setter was never invoked). -/
structure Tensor where
  dtype : DType
  device : Device
  storage : Option UntypedStorage
  storage_offset : Nat
  size : List Nat
  stride : List Int
  requires_grad : Bool
  backward_hooks : BackwardHooks
  metadata : Option TensorMetadata
deriving DecidableEq, Repr

/-- Modelled from the spec: the external allocation facility behind
`torch.tensor([], dtype=..., device=...)` — a zero-size tensor with the given
dtype and device, no bound storage, and default flags/bits. -/
def torch_tensor_empty (dtype : DType) (device : Device) : Tensor :=
  { dtype := dtype
    device := device
    storage := none
    storage_offset := 0
    size := [0]
    stride := [1]
    requires_grad := false
    backward_hooks := []
    metadata := none }

/-- Modelled from the spec: the bind operation `tensor.set_(storage, offset,
size, stride)` — rebind the tensor to the given storage region with the given
shape and strides (dtype/device are unchanged; torch requires the storage to
live on the tensor's device).  The native element-count bounds check is
delegated to the external allocation facility and is out of scope. -/
def Tensor.set_ (t : Tensor) (s : UntypedStorage) (offset : Nat)
    (size : List Nat) (stride : List Int) : Tensor :=
  { t with storage := some s, storage_offset := offset, size := size, stride := stride }

/-- torch._utils._rebuild_tensor (the spec's rebuild_dense): first construct
a zero-size tensor with the storage's dtype/device, then bind it to the
storage at the given offset with the given size and stride. -/
def rebuild_tensor (storage : TypedStorage) (storage_offset : Nat)
    (size : List Nat) (stride : List Int) : Tensor :=
  let t := torch_tensor_empty storage.dtype storage.untyped.device
  t.set_ storage.untyped storage_offset size stride

/-- Modelled from the spec: the opaque metadata setter
torch._C._set_tensor_metadata — applies the bit-flag map to the tensor's
metadata bits. -/
def set_tensor_metadata (t : Tensor) (m : TensorMetadata) : Tensor :=
  { t with metadata := some m }

/-- torch._utils._rebuild_tensor_v2 (the spec's rebuild_dense_v2): rebuild the
dense tensor, set the gradient-tracking flag, apply the optional metadata map
only when it is truthy (non-None and non-empty), and store the hooks field
verbatim. -/
def rebuild_tensor_v2 (storage : TypedStorage) (storage_offset : Nat)
    (size : List Nat) (stride : List Int) (requires_grad : Bool)
    (backward_hooks : BackwardHooks) (metadata : Option TensorMetadata) : Tensor :=
  let tensor := rebuild_tensor storage storage_offset size stride
  let tensor := { tensor with requires_grad := requires_grad }
  let tensor :=
    match metadata with
    | some m => if m.isEmpty then tensor else set_tensor_metadata tensor m
    | none => tensor
  { tensor with backward_hooks := backward_hooks }

/-- A sparse tensor as observed by _rebuild_sparse_tensor and
_validate_loaded_sparse_tensors.  COO tensors use `indices`
(one row of nnz entries per sparse dimension), `values` and `is_coalesced`;
compressed tensors use `compressed_indices`, `plain_indices` and `values`.
Values are modelled as scalars. -/
structure SparseTensor where
  layout : Layout
  indices : List (List Int)
  values : List Int
  size : List Nat
  is_coalesced : Option Bool
  compressed_indices : List Int
  plain_indices : List Int
deriving DecidableEq, Repr

/-- Modelled from the spec: the native constructor torch.sparse_coo_tensor
called with check_invariants=False — it builds the unvalidated COO tensor and
performs no structural validation at all. -/
def sparse_coo_tensor (indices : List (List Int)) (values : List Int)
    (size : List Nat) (is_coalesced : Option Bool) : SparseTensor :=
  { layout := .sparse_coo
    indices := indices
    values := values
    size := size
    is_coalesced := is_coalesced
    compressed_indices := []
    plain_indices := [] }

/-- Modelled from the spec: the native constructor
torch.sparse_compressed_tensor called with check_invariants=False — it builds
the unvalidated compressed sparse tensor and performs no structural
validation at all. -/
def sparse_compressed_tensor (compressed_indices plain_indices : List Int)
    (values : List Int) (size : List Nat) (layout : Layout) : SparseTensor :=
  { layout := layout
    indices := []
    values := values
    size := size
    is_coalesced := none
    compressed_indices := compressed_indices
    plain_indices := plain_indices }

/-- The is_coalesced() accessor: a COO tensor built with is_coalesced=None
reports False. -/
def SparseTensor.isCoalescedFlag (t : SparseTensor) : Bool :=
  t.is_coalesced.getD false

/-- Each COO index entry lies within the bounds of its dimension. -/
def cooIndexBoundsOk (indices : List (List Int)) (size : List Nat) : Bool :=
  (List.zip indices size).all
    (fun p => p.1.all (fun i => decide (0 ≤ i) && decide (i < (p.2 : Int))))

/-- Shape consistency of COO arguments: no more index rows than dimensions,
and every index row has one entry per stored value. -/
def cooShapeOk (indices : List (List Int)) (values : List Int)
    (size : List Nat) : Bool :=
  decide (indices.length ≤ size.length)
    && indices.all (fun row => decide (row.length = values.length))

/-- Lexicographic strict order on index columns. -/
def lexLt : List Int → List Int → Bool
  | [], [] => false
  | [], _ :: _ => true
  | _ :: _, [] => false
  | a :: as, b :: bs => decide (a < b) || (decide (a = b) && lexLt as bs)

/-- The j-th index column of a COO index matrix. -/
def cooColumn (indices : List (List Int)) (j : Nat) : List Int :=
  indices.map (fun row => row.getD j 0)

/-- Adjacent-pair strict lexicographic sortedness. -/
def strictlySortedLex : List (List Int) → Bool
  | [] => true
  | [_] => true
  | a :: b :: rest => lexLt a b && strictlySortedLex (b :: rest)

/-- Sortedness/coalescing consistency: when the tensor claims to be
coalesced, its index columns are strictly lexicographically sorted. -/
def cooCoalescedOk (indices : List (List Int)) (values : List Int)
    (is_coalesced : Bool) : Bool :=
  !is_coalesced
    || strictlySortedLex ((List.range values.length).map (cooColumn indices))

/-- Modelled from the spec: the native validator
torch._validate_sparse_coo_tensor_args — checks the structural invariants of
a COO tensor (index bounds, shape consistency, sortedness/coalescing) and
raises on violation. -/
def validate_sparse_coo_tensor_args (indices : List (List Int))
    (values : List Int) (size : List Nat) (is_coalesced : Bool) :
    Except PyError Unit :=
  if cooIndexBoundsOk indices size && cooShapeOk indices values size
      && cooCoalescedOk indices values is_coalesced then
    .ok ()
  else
    .error .structuralError

/-- Adjacent-pair nondecreasing check for compressed index arrays. -/
def nondecreasing : List Int → Bool
  | [] => true
  | [_] => true
  | a :: b :: rest => decide (a ≤ b) && nondecreasing (b :: rest)

/-- The extent of the plain dimension of a compressed sparse tensor: the last
dimension for row-compressed layouts, the first otherwise. -/
def plainDimExtent (size : List Nat) (layout : Layout) : Nat :=
  if layout = .sparse_csr ∨ layout = .sparse_bsr then
    size.getLastD 0
  else
    size.headD 0

/-- Modelled from the spec: the native validator
torch._validate_sparse_compressed_tensor_args — checks the structural
invariants of a compressed sparse tensor (nondecreasing compressed pointers
starting at 0 and ending at nnz, plain indices within bounds, shape
consistency) and raises on violation. -/
def validate_sparse_compressed_tensor_args (compressed_indices plain_indices : List Int)
    (values : List Int) (size : List Nat) (layout : Layout) :
    Except PyError Unit :=
  if nondecreasing compressed_indices
      && decide (compressed_indices.headD 0 = 0)
      && decide (compressed_indices.getLastD 0 = (values.length : Int))
      && decide (plain_indices.length = values.length)
      && plain_indices.all
        (fun i => decide (0 ≤ i) && decide (i < (plainDimExtent size layout : Int))) then
    .ok ()
  else
    .error .structuralError

/-- The validation step the drain applies to one pending tensor: the body of
the for loop of torch._utils._validate_loaded_sparse_tensors, dispatching on
the tensor's layout (COO validator; compressed validator on the
compressed/plain index pair; NotImplementedError for any other layout). -/
def validateOnePending (t : SparseTensor) : Except PyError Unit :=
  match t.layout with
  | .sparse_coo =>
      validate_sparse_coo_tensor_args t.indices t.values t.size t.isCoalescedFlag
  | .sparse_csr =>
      validate_sparse_compressed_tensor_args t.compressed_indices t.plain_indices
        t.values t.size t.layout
  | .sparse_csc =>
      validate_sparse_compressed_tensor_args t.compressed_indices t.plain_indices
        t.values t.size t.layout
  | .sparse_bsr =>
      validate_sparse_compressed_tensor_args t.compressed_indices t.plain_indices
        t.values t.size t.layout
  | .sparse_bsc =>
      validate_sparse_compressed_tensor_args t.compressed_indices t.plain_indices
        t.values t.size t.layout
  | .strided =>
      .error (.notImplementedError
        ("_validate_loaded_sparse_tensors for layout `" ++ Layout.pyName .strided ++ "`"))

/-- The for loop of _validate_loaded_sparse_tensors: validate pending tensors
in order, stopping at the first failure. -/
def validatePendingList : List SparseTensor → Except PyError Unit
  | [] => .ok ()
  | t :: rest =>
      match validateOnePending t with
      | .ok _ => validatePendingList rest
      | .error e => .error e

/-- torch._utils._validate_loaded_sparse_tensors (the spec's
validate_pending_sparse): run the validation loop over the pending list and,
in a finally block, clear the list unconditionally — the returned state is
empty on the success path and on every failure path alike. -/
def validate_loaded_sparse_tensors (pending : List SparseTensor) :
    Except PyError Unit × List SparseTensor :=
  (validatePendingList pending, [])

/-- The `data` tuple argument of _rebuild_sparse_tensor: a 3-tuple COO payload
(the backward-compatibility form without is_coalesced), a 4-tuple COO payload,
or a compressed payload. -/
inductive SparseData
  | coo3 (indices : List (List Int)) (values : List Int) (size : List Nat)
  | coo4 (indices : List (List Int)) (values : List Int) (size : List Nat)
      (is_coalesced : Option Bool)
  | compressed (compressed_indices plain_indices : List Int)
      (values : List Int) (size : List Nat)
deriving DecidableEq, Repr

/-- torch._utils._rebuild_sparse_tensor (the spec's rebuild_sparse_coo /
rebuild_sparse_compressed): construct the sparse tensor with invariant
checking disabled, append it to the pending-validation list, and return it;
no structural validation runs here.  Unknown layouts raise
NotImplementedError; a payload whose arity does not fit the layout is
modelled as an unpack mismatch (a corner no claim depends on). -/
def rebuild_sparse_tensor (layout : Layout) (data : SparseData)
    (pending : List SparseTensor) :
    Except PyError SparseTensor × List SparseTensor :=
  match layout, data with
  | .sparse_coo, .coo3 indices values size =>
      let result := sparse_coo_tensor indices values size none
      (.ok result, pending ++ [result])
  | .sparse_coo, .coo4 indices values size is_coalesced =>
      let result := sparse_coo_tensor indices values size is_coalesced
      (.ok result, pending ++ [result])
  | .sparse_coo, .compressed _ _ _ _ =>
      (.error .unpackMismatch, pending)
  | .sparse_csr, .compressed ci pi values size =>
      let result := sparse_compressed_tensor ci pi values size .sparse_csr
      (.ok result, pending ++ [result])
  | .sparse_csc, .compressed ci pi values size =>
      let result := sparse_compressed_tensor ci pi values size .sparse_csc
      (.ok result, pending ++ [result])
  | .sparse_bsr, .compressed ci pi values size =>
      let result := sparse_compressed_tensor ci pi values size .sparse_bsr
      (.ok result, pending ++ [result])
  | .sparse_bsc, .compressed ci pi values size =>
      let result := sparse_compressed_tensor ci pi values size .sparse_bsc
      (.ok result, pending ++ [result])
  | .sparse_csr, _ => (.error .unpackMismatch, pending)
  | .sparse_csc, _ => (.error .unpackMismatch, pending)
  | .sparse_bsr, _ => (.error .unpackMismatch, pending)
  | .sparse_bsc, _ => (.error .unpackMismatch, pending)
  | .strided, _ =>
      (.error (.notImplementedError
        ("rebuilding sparse tensor for layout " ++ Layout.pyName .strided)), pending)

/-- The pending-validation state reached after a sequence of rebuild calls:
each call threads the pending list through, keeping whatever the call left
there. -/
def runRebuildCalls (calls : List (Layout × SparseData))
    (init : List SparseTensor) : List SparseTensor :=
  calls.foldl (fun st c => (rebuild_sparse_tensor c.1 c.2 st).2) init

/-- A typed one-dimensional vector produced by torch.tensor(list, dtype=...,
device=...): the promoted per-channel scale / zero-point vectors. -/
structure QVec where
  dtype : DType
  device : Device
  data : List Rat
deriving DecidableEq, Repr

/-- A per-channel scale or zero-point argument as it arrives at
_rebuild_qtensor: either a plain Python list of scalars or an
already-materialized typed vector. -/
inductive PyScalars
  | list (xs : List Rat)
  | tensor (v : QVec)
deriving DecidableEq, Repr

/-- Modelled from the spec: the native factory torch.tensor(list, dtype,
device) used by the promotion step — materialize a plain list as a typed
vector on the given device. -/
def torch_tensor_of_list (xs : List Rat) (dtype : DType) (device : Device) : QVec :=
  { dtype := dtype, device := device, data := xs }

/-- Quantizer parameters attached to a quantized tensor after allocation:
a scalar scale/zero-point pair, or per-channel scale/zero-point arguments
plus an axis. -/
inductive QParams
  | perTensor (scale : Rat) (zero_point : Int)
  | perChannel (scales : PyScalars) (zero_points : PyScalars) (axis : Int)
deriving DecidableEq, Repr

/-- A quantized tensor as observed by _rebuild_qtensor: dtype/device, the
bound typed-storage region, quantizer parameters, the gradient flag and the
carried hooks field. -/
structure QTensor where
  dtype : DType
  device : Device
  qparams : QParams
  storage : Option TypedStorage
  storage_offset : Nat
  size : List Nat
  stride : List Int
  requires_grad : Bool
  backward_hooks : BackwardHooks
deriving DecidableEq, Repr

/-- Modelled from the spec: the allocation facility
torch._empty_affine_quantized — an uninitialized per-tensor-affine quantized
tensor with the given shape, scalar scale/zero-point, dtype and device. -/
def torch_empty_affine_quantized (size : List Nat) (scale : Rat)
    (zero_point : Int) (dtype : DType) (device : Device) : QTensor :=
  { dtype := dtype
    device := device
    qparams := .perTensor scale zero_point
    storage := none
    storage_offset := 0
    size := size
    stride := []
    requires_grad := false
    backward_hooks := [] }

/-- Modelled from the spec: the allocation facility
torch._empty_per_channel_affine_quantized — an uninitialized per-channel
quantized tensor carrying the given scale / zero-point arguments and axis. -/
def torch_empty_per_channel_affine_quantized (size : List Nat)
    (scales zero_points : PyScalars) (axis : Int) (dtype : DType)
    (device : Device) : QTensor :=
  { dtype := dtype
    device := device
    qparams := .perChannel scales zero_points axis
    storage := none
    storage_offset := 0
    size := size
    stride := []
    requires_grad := false
    backward_hooks := [] }

/-- Modelled from the spec: qtensor.set_(storage, offset, size, stride) —
bind the quantized tensor to the given typed-storage region. -/
def QTensor.set_ (t : QTensor) (s : TypedStorage) (offset : Nat)
    (size : List Nat) (stride : List Int) : QTensor :=
  { t with storage := some s, storage_offset := offset, size := size, stride := stride }

/-- The quantizer_params tuple of _rebuild_qtensor, keyed by its scheme head:
a 3-tuple (scheme, scale, zero_point) or a 4-tuple (scheme, scales,
zero_points, axis). -/
inductive QuantizerParams
  | perTensorData (scheme : QScheme) (scale : Rat) (zero_point : Int)
  | perChannelData (scheme : QScheme) (scales : PyScalars)
      (zero_points : PyScalars) (axis : Int)
deriving DecidableEq, Repr

/-- quantizer_params[0]: the scheme tag at the head of the tuple. -/
def QuantizerParams.scheme : QuantizerParams → QScheme
  | .perTensorData s _ _ => s
  | .perChannelData s _ _ _ => s

/-- torch._utils._rebuild_qtensor (the spec's rebuild_quantized): dispatch on
the quantization scheme tag.  Per-tensor-affine allocates with the scalar
scale/zero-point; the two per-channel schemes first promote list-typed
scale/zero-point inputs to typed vectors on the storage's device (double
scales and long zero-points for the plain affine scheme, float scales and
float zero-points for the float-qparams scheme), then allocate; any other
scheme tag raises RuntimeError.  The allocated tensor is then bound to the
storage region and the gradient flag and hooks field are set. -/
def rebuild_qtensor (storage : TypedStorage) (storage_offset : Nat)
    (size : List Nat) (stride : List Int) (quantizer_params : QuantizerParams)
    (requires_grad : Bool) (backward_hooks : BackwardHooks) :
    Except PyError QTensor :=
  let qscheme := quantizer_params.scheme
  if qscheme = .per_tensor_affine then
    match quantizer_params with
    | .perTensorData _ scale zero_point =>
        let tensor := torch_empty_affine_quantized size scale zero_point
          storage.dtype storage.device
        let tensor := tensor.set_ storage storage_offset size stride
        .ok { tensor with requires_grad := requires_grad, backward_hooks := backward_hooks }
    | _ => .error .unpackMismatch
  else if qscheme = .per_channel_affine ∨ qscheme = .per_channel_affine_float_qparams then
    match quantizer_params with
    | .perChannelData _ scales zero_points axis =>
        let promoted : PyScalars × PyScalars :=
          match scales, zero_points with
          | .list sc, .list zp =>
              if qscheme = .per_channel_affine then
                (.tensor (torch_tensor_of_list sc .float64 storage.device),
                 .tensor (torch_tensor_of_list zp .int64 storage.device))
              else
                (.tensor (torch_tensor_of_list sc .float32 storage.device),
                 .tensor (torch_tensor_of_list zp .float32 storage.device))
          | _, _ => (scales, zero_points)
        let tensor := torch_empty_per_channel_affine_quantized size
          promoted.1 promoted.2 axis storage.dtype storage.device
        let tensor := tensor.set_ storage storage_offset size stride
        .ok { tensor with requires_grad := requires_grad, backward_hooks := backward_hooks }
    | _ => .error .unpackMismatch
  else
    .error (.runtimeError
      ("Can't deserialize quantized tensor with qscheme " ++ qscheme.pyName))

/-- The promoted zero-point vector of a quantized tensor, when its
zero-points are a typed vector. -/
def QTensor.zeroPointsVec (t : QTensor) : Option QVec :=
  match t.qparams with
  | .perChannel _ (.tensor v) _ => some v
  | _ => none

/-- The promoted scales vector of a quantized tensor, when its scales are a
typed vector. -/
def QTensor.scalesVec (t : QTensor) : Option QVec :=
  match t.qparams with
  | .perChannel (.tensor v) _ _ => some v
  | _ => none

/-- An attribute map (a Python dict of attribute name to value); attribute
values are modelled as integers. -/
abbrev AttrMap := List (String × Int)

/-- A trainable parameter: the wrapped data tensor, the gradient flag, the
carried hooks field, and the dynamic attributes replayed onto the object. -/
structure Parameter where
  data : Tensor
  requires_grad : Bool
  backward_hooks : BackwardHooks
  attrs : AttrMap
deriving DecidableEq, Repr

/-- Modelled from the spec: the constructor torch.nn.Parameter(data,
requires_grad) — wrap a tensor as a trainable-parameter variant with fresh
(empty) hooks and attributes. -/
def torch_nn_Parameter (data : Tensor) (requires_grad : Bool) : Parameter :=
  { data := data, requires_grad := requires_grad, backward_hooks := [], attrs := [] }

/-- setattr on an attribute map: overwrite the key if present, append it
otherwise. -/
def setKV : AttrMap → String → Int → AttrMap
  | [], k, v => [(k, v)]
  | (k0, v0) :: rest, k, v =>
      if k0 = k then (k, v) :: rest else (k0, v0) :: setKV rest k v

/-- setattr(obj, k, v) on a parameter. -/
def Parameter.setAttr (obj : Parameter) (k : String) (v : Int) : Parameter :=
  { obj with attrs := setKV obj.attrs k v }

/-- The key-by-key replay loop `for k, v in d.items(): setattr(obj, k, v)`. -/
def applyAttrMap (obj : Parameter) (d : AttrMap) : Parameter :=
  d.foldl (fun o kv => o.setAttr kv.1 kv.2) obj

/-- The object-state blob passed to _set_obj_state: a plain attribute map, or
a tuple of dict-or-None entries (the well-formed tuple has exactly an
attribute map and a slot map). -/
inductive StateBlob
  | map (d : AttrMap)
  | tup (es : List (Option AttrMap))
deriving DecidableEq, Repr

/-- The repr of a state blob interpolated into the "Invalid serialized
state" error message. -/
def stateRepr (state : StateBlob) : String :=
  reprStr state

/-- torch._utils._set_obj_state: a tuple state must have exactly 2 elements
(attribute dict and slots dict) or RuntimeError is raised before anything is
applied; a non-tuple state is the attribute dict itself.  Each of the two
dicts is applied key-by-key when truthy (non-None and non-empty). -/
def set_obj_state (obj : Parameter) (state : StateBlob) :
    Except PyError Parameter :=
  match state with
  | .map d =>
      let obj := if d.isEmpty then obj else applyAttrMap obj d
      .ok obj
  | .tup [dict_state, slots_state] =>
      let obj :=
        match dict_state with
        | some d => if d.isEmpty then obj else applyAttrMap obj d
        | none => obj
      let obj :=
        match slots_state with
        | some s => if s.isEmpty then obj else applyAttrMap obj s
        | none => obj
      .ok obj
  | .tup es =>
      .error (.runtimeError ("Invalid serialized state: " ++ stateRepr (.tup es)))

/-- torch._utils._rebuild_parameter: wrap the data tensor as a parameter and
store the hooks field verbatim. -/
def rebuild_parameter (data : Tensor) (requires_grad : Bool)
    (backward_hooks : BackwardHooks) : Parameter :=
  let param := torch_nn_Parameter data requires_grad
  { param with backward_hooks := backward_hooks }

/-- torch._utils._rebuild_parameter_with_state: wrap the data tensor as a
parameter, store the hooks field, then replay the object-state blob onto the
parameter via _set_obj_state. -/
def rebuild_parameter_with_state (data : Tensor) (requires_grad : Bool)
    (backward_hooks : BackwardHooks) (state : StateBlob) :
    Except PyError Parameter :=
  let param := torch_nn_Parameter data requires_grad
  let param := { param with backward_hooks := backward_hooks }
  set_obj_state param state

/-- A Python exception class as observed by ExceptionWrapper: its __name__,
whether constructing it with one message argument succeeds (a kind whose
constructor requires a different arity raises TypeError instead), and whether
getattr(kind, "message", None) is truthy.  Class identity is modelled as
equality of these fields. -/
structure ExcKind where
  name : String
  acceptsSingleStringArg : Bool
  hasMessageField : Bool
deriving DecidableEq, Repr

/-- The builtin KeyError class: one constructor argument, no message field. -/
def KeyErrorKind : ExcKind :=
  { name := "KeyError", acceptsSingleStringArg := true, hasMessageField := false }

/-- The builtin RuntimeError class. -/
def RuntimeErrorKind : ExcKind :=
  { name := "RuntimeError", acceptsSingleStringArg := true, hasMessageField := false }

/-- The builtin TypeError class (the construction-time secondary error). -/
def TypeErrorKind : ExcKind :=
  { name := "TypeError", acceptsSingleStringArg := true, hasMessageField := false }

/-- The builtin ValueError class. -/
def ValueErrorKind : ExcKind :=
  { name := "ValueError", acceptsSingleStringArg := true, hasMessageField := false }

/-- A Python string value: either an ordinary str, or the KeyErrorMessage
str subclass of torch._utils (src lines 655-659), whose __repr__ returns the
string itself. -/
inductive PyStr
  | plain (s : String)
  | keyErrorMessage (s : String)
deriving DecidableEq, Repr

/-- The character content of a Python string value. -/
def PyStr.text : PyStr → String
  | .plain s => s
  | .keyErrorMessage s => s

/-- Python newline escaping, standing for the escaping pass of str.__repr__. -/
def escapeNewlines (s : String) : String :=
  s.replace "\n" "\\n"

/-- repr() of a Python string value.  An ordinary str goes through a
quoting/escaping pass (modelled from the spec: the default display applies an
extra quoting pass that garbles multi-line traces); KeyErrorMessage returns
itself (src lines 655-659). -/
def PyStr.pyRepr : PyStr → String
  | .plain s => "'" ++ escapeNewlines s ++ "'"
  | .keyErrorMessage s => s

/-- Modelled from the spec: how a raised KeyError displays its argument —
through the quoting representation repr() (Python bug 2651, cited at src
lines 680-682). -/
def keyErrorDisplay (arg : PyStr) : String :=
  arg.pyRepr

/-- A raised (or constructed) Python exception: its class, its message
argument, and its explicit __cause__ (`raise ... from None` yields none,
discarding any pending context). -/
structure RaisedError where
  kind : ExcKind
  arg : PyStr
  cause : Option ExcKind
deriving DecidableEq, Repr

/-- A heap of live traceback objects, addressed by reference; each holds the
formatted stack frames.  Mutating the heap after capture models mutating or
discarding the original error and stack. -/
abbrev TracebackStore := Nat → List String

/-- The exc_info triple as read by ExceptionWrapper.__init__: the exception
class, the exception message, and a reference into the traceback heap. -/
structure ExcInfo where
  ty : ExcKind
  valueMsg : String
  tbRef : Nat

/-- Modelled from the spec: traceback.format_exception — render the full
trace (header, frames, and the final kind/message line) to a string, reading
the live traceback object from the heap. -/
def format_exception (store : TracebackStore) (info : ExcInfo) : String :=
  "Traceback (most recent call last):\n"
    ++ String.intercalate "" (store info.tbRef)
    ++ info.ty.name ++ ": " ++ info.valueMsg ++ "\n"

/-- torch._utils.ExceptionWrapper: the one-shot exception snapshot.  It
stores only the kind tag, the pre-rendered trace string and the origin
label — no traceback reference. -/
structure ExceptionWrapper where
  exc_type : ExcKind
  exc_msg : String
  whereLbl : String
deriving DecidableEq, Repr

/-- ExceptionWrapper.__init__ (the spec's capture): read the error kind and
render the full trace to a formatted string immediately, synchronously, at
the current heap; store only the kind tag, the formatted string and the
label.  The traceback reference itself is not retained. -/
def ExceptionWrapper.capture (store : TracebackStore) (info : ExcInfo)
    (whereLbl : String) : ExceptionWrapper :=
  { exc_type := info.ty
    exc_msg := format_exception store info
    whereLbl := whereLbl }

/-- capture followed by an arbitrary mutation of the traceback heap: the
snapshot is taken first, then the heap changes. -/
def captureThenMutate (store : TracebackStore) (info : ExcInfo)
    (whereLbl : String) (mutate : TracebackStore → TracebackStore) :
    ExceptionWrapper × TracebackStore :=
  let w := ExceptionWrapper.capture store info whereLbl
  (w, mutate store)

/-- The composite message built by reraise:
"Caught <kind> <origin_label>.\nOriginal <formatted_trace>". -/
def ExceptionWrapper.compositeMsg (w : ExceptionWrapper) : String :=
  "Caught " ++ w.exc_type.name ++ " " ++ w.whereLbl ++ ".\nOriginal " ++ w.exc_msg

/-- The statement `exception = self.exc_type(msg)`: constructing an exception
of the captured kind with the composite message as its sole argument; a kind
whose constructor takes a different arity raises TypeError instead. -/
def constructException (k : ExcKind) (msg : PyStr) :
    Except ExcKind RaisedError :=
  if k.acceptsSingleStringArg then
    .ok { kind := k, arg := msg, cause := none }
  else
    .error TypeErrorKind

/-- The try/except tail of reraise: attempt single-argument construction of
the captured kind; on TypeError, discard the secondary error and raise
RuntimeError(msg) from None instead (no cause attached). -/
def raiseFromTry (k : ExcKind) (msg : PyStr) : RaisedError :=
  match constructException k msg with
  | .ok e => e
  | .error _secondary => { kind := RuntimeErrorKind, arg := msg, cause := none }

/-- ExceptionWrapper.reraise: build the composite message; wrap it in
KeyErrorMessage when the captured kind is KeyError; raise via the message
field convention when the kind exposes one; otherwise attempt single-argument
construction with the RuntimeError fallback.  The function always produces a
raised error — it never returns normally, which the codomain makes
explicit. -/
def ExceptionWrapper.reraise (w : ExceptionWrapper) : RaisedError :=
  if w.exc_type = KeyErrorKind then
    raiseFromTry w.exc_type (.keyErrorMessage w.compositeMsg)
  else if w.exc_type.hasMessageField then
    { kind := w.exc_type, arg := .plain w.compositeMsg, cause := none }
  else
    raiseFromTry w.exc_type (.plain w.compositeMsg)

/-- A demonstration storage used by concrete witnesses. -/
def demoStorage : TypedStorage :=
  { dtype := .quint8, untyped := { device := .cpu, nbytes := 4 } }

/-- An exception class whose constructor requires two non-optional arguments
and which has no message field: single-argument construction raises
TypeError. -/
def twoArgKind : ExcKind :=
  { name := "TwoArgError", acceptsSingleStringArg := false, hasMessageField := false }

/-- An exception class exposing a truthy class-level message attribute whose
constructor nevertheless rejects a single positional argument. -/
def messageFieldTwoArgKind : ExcKind :=
  { name := "MessageFieldError", acceptsSingleStringArg := false, hasMessageField := true }

/-- C1: for every sequence of sparse reconstruction calls followed by one
call to the validation drain, the pending-validation set is empty when the
drain returns or raises — the drain clears the set unconditionally, on the
success path and on every failure path alike. -/
theorem validate_pending_drain_clears_unconditionally
    (calls : List (Layout × SparseData)) (init : List SparseTensor) :
    (validate_loaded_sparse_tensors (runRebuildCalls calls init)).2 = [] :=
  rfl

/-- C2: for every indices/values/size input — including structurally invalid
ones — the sparse rebuild succeeds without running structural validation,
constructs the tensor with invariant checking disabled, and appends it to the
pending-validation set; the structural error is raised only by the later
drain, never by the eager reconstruction call. -/
theorem sparse_rebuild_defers_validation :
    (∀ (indices : List (List Int)) (values : List Int) (size : List Nat)
        (c : Option Bool) (pending : List SparseTensor),
        rebuild_sparse_tensor .sparse_coo (.coo4 indices values size c) pending
          = (.ok (sparse_coo_tensor indices values size c),
             pending ++ [sparse_coo_tensor indices values size c]))
    ∧ (∀ (l : Layout),
        (l = Layout.sparse_csr ∨ l = Layout.sparse_csc
          ∨ l = Layout.sparse_bsr ∨ l = Layout.sparse_bsc) →
        ∀ (ci pi : List Int) (values : List Int) (size : List Nat)
          (pending : List SparseTensor),
        rebuild_sparse_tensor l (.compressed ci pi values size) pending
          = (.ok (sparse_compressed_tensor ci pi values size l),
             pending ++ [sparse_compressed_tensor ci pi values size l]))
    ∧ (∀ (l : Layout) (d : SparseData) (pending : List SparseTensor),
        (rebuild_sparse_tensor l d pending).1 ≠ Except.error PyError.structuralError)
    ∧ (∀ (indices : List (List Int)) (values : List Int) (size : List Nat)
        (c : Option Bool),
        validate_sparse_coo_tensor_args indices values size (c.getD false)
            = .error .structuralError →
        (validate_loaded_sparse_tensors
            (rebuild_sparse_tensor .sparse_coo (.coo4 indices values size c) []).2).1
          = .error .structuralError) := by
  refine ⟨fun _ _ _ _ _ => rfl, ?_, ?_, ?_⟩
  · intro l hl ci pi values size pending
    rcases hl with h | h | h | h <;> subst h <;> rfl
  · intro l d pending
    cases l <;> cases d <;> simp [rebuild_sparse_tensor]
  · intro indices values size c h
    have hone : validateOnePending (sparse_coo_tensor indices values size c)
        = validate_sparse_coo_tensor_args indices values size (c.getD false) := rfl
    simp [validate_loaded_sparse_tensors, rebuild_sparse_tensor,
      validatePendingList, hone, h]

/-- Witness for C2: a CSR rebuild at concrete input, and a COO input with an
out-of-bounds index (index 5 in a dimension of extent 3) that the rebuild
accepts and the drain rejects with the structural error. -/
theorem sparse_rebuild_defers_validation_witness :
    (Layout.sparse_csr = Layout.sparse_csr ∨ Layout.sparse_csr = Layout.sparse_csc
      ∨ Layout.sparse_csr = Layout.sparse_bsr ∨ Layout.sparse_csr = Layout.sparse_bsc)
    ∧ rebuild_sparse_tensor .sparse_csr (.compressed [0, 1] [0] [1] [3, 3]) []
        = (.ok (sparse_compressed_tensor [0, 1] [0] [1] [3, 3] .sparse_csr),
           [] ++ [sparse_compressed_tensor [0, 1] [0] [1] [3, 3] .sparse_csr])
    ∧ validate_sparse_coo_tensor_args [[5]] [7] [3] ((none : Option Bool).getD false)
        = .error .structuralError
    ∧ (validate_loaded_sparse_tensors
          (rebuild_sparse_tensor .sparse_coo (.coo4 [[5]] [7] [3] none) []).2).1
        = .error .structuralError :=
  ⟨Or.inl rfl,
   sparse_rebuild_defers_validation.2.1 Layout.sparse_csr (Or.inl rfl) [0, 1] [0] [1] [3, 3] [],
   rfl,
   sparse_rebuild_defers_validation.2.2.2 [[5]] [7] [3] none rfl⟩

/-- C7: rebuild_dense first allocates a zero-size tensor taking its dtype and
device from the storage, then binds it to that storage at the given offset
with the given shape and strides; the result's dtype and device equal the
storage's, its shape equals size and its strides equal stride. -/
theorem rebuild_dense_binds_storage (storage : TypedStorage)
    (storage_offset : Nat) (size : List Nat) (stride : List Int) :
    rebuild_tensor storage storage_offset size stride
        = (torch_tensor_empty storage.dtype storage.untyped.device).set_
            storage.untyped storage_offset size stride
    ∧ (rebuild_tensor storage storage_offset size stride).dtype = storage.dtype
    ∧ (rebuild_tensor storage storage_offset size stride).device = storage.device
    ∧ (rebuild_tensor storage storage_offset size stride).size = size
    ∧ (rebuild_tensor storage storage_offset size stride).stride = stride
    ∧ (rebuild_tensor storage storage_offset size stride).storage = some storage.untyped
    ∧ (rebuild_tensor storage storage_offset size stride).storage_offset = storage_offset :=
  ⟨rfl, rfl, rfl, rfl, rfl, rfl, rfl⟩

/-- C9: capture renders the full trace synchronously at the current heap and
stores only the kind tag, the formatted string and the origin label; any
mutation of the traceback heap performed after capture leaves the snapshot —
and hence its rendered trace string — unchanged. -/
theorem capture_snapshot_independent (store : TracebackStore) (info : ExcInfo)
    (lbl : String) (mutate : TracebackStore → TracebackStore) :
    (captureThenMutate store info lbl mutate).1.exc_msg = format_exception store info
    ∧ (captureThenMutate store info lbl mutate).1
        = (captureThenMutate store info lbl id).1
    ∧ (captureThenMutate store info lbl mutate).1
        = { exc_type := info.ty, exc_msg := format_exception store info, whereLbl := lbl } :=
  ⟨rfl, rfl, rfl⟩

/-- C10: rebuild_dense_v2 applies the optional metadata map only when it is
non-empty — for metadata absent or an empty map the tensor's metadata bits
stay exactly as allocated by rebuild_dense — while requires_grad and the
legacy hooks field are always set from the arguments. -/
theorem rebuild_dense_v2_metadata_only_when_nonempty (storage : TypedStorage)
    (storage_offset : Nat) (size : List Nat) (stride : List Int)
    (rg : Bool) (bh : BackwardHooks) (m : Option TensorMetadata) :
    (rebuild_tensor_v2 storage storage_offset size stride rg bh none).metadata
        = (rebuild_tensor storage storage_offset size stride).metadata
    ∧ (rebuild_tensor_v2 storage storage_offset size stride rg bh (some [])).metadata
        = (rebuild_tensor storage storage_offset size stride).metadata
    ∧ (rebuild_tensor_v2 storage storage_offset size stride rg bh none).metadata = none
    ∧ (rebuild_tensor_v2 storage storage_offset size stride rg bh m).requires_grad = rg
    ∧ (rebuild_tensor_v2 storage storage_offset size stride rg bh m).backward_hooks = bh := by
  refine ⟨rfl, rfl, rfl, ?_, ?_⟩ <;>
    cases m with
    | none => rfl
    | some d => cases d <;> rfl

/-- C3: for every snapshot with captured kind K, trace text T and origin
label W, reraise produces an error whose message text is exactly
"Caught " ++ name(K) ++ " " ++ W ++ ".\nOriginal " ++ T, with the stored
trace appended verbatim; the codomain of reraise makes explicit that it
always raises and never returns normally. -/
theorem reraise_message_shape (w : ExceptionWrapper) :
    (w.reraise).arg.text
      = "Caught " ++ w.exc_type.name ++ " " ++ w.whereLbl ++ ".\nOriginal " ++ w.exc_msg := by
  by_cases hk : w.exc_type = KeyErrorKind
  · simp [ExceptionWrapper.reraise, hk, raiseFromTry, constructException,
      KeyErrorKind, ExceptionWrapper.compositeMsg, PyStr.text]
  · by_cases hm : w.exc_type.hasMessageField
    · simp [ExceptionWrapper.reraise, hk, hm, ExceptionWrapper.compositeMsg, PyStr.text]
    · by_cases ha : w.exc_type.acceptsSingleStringArg <;>
        simp [ExceptionWrapper.reraise, hk, hm, ha, raiseFromTry, constructException,
          ExceptionWrapper.compositeMsg, PyStr.text]

/-- C4: rebuild_quantized dispatches on the quantization scheme tag: the
per-tensor-affine tag allocates with the scalar scale/zero-point; the
per-channel tags with list-typed scale/zero-point inputs promote them to
typed vectors on the storage's device — long (integral) zero-points for the
plain per-channel-affine scheme, float (floating-point) zero-points for the
float-qparams scheme — and every other scheme tag fails with the
unsupported-scheme RuntimeError. -/
theorem quantized_scheme_dispatch :
    (∀ (storage : TypedStorage) (offset : Nat) (size : List Nat) (stride : List Int)
        (rg : Bool) (bh : BackwardHooks) (scale : Rat) (zp : Int),
        ∃ t, rebuild_qtensor storage offset size stride
              (.perTensorData .per_tensor_affine scale zp) rg bh = .ok t
          ∧ t.qparams = .perTensor scale zp)
    ∧ (∀ (storage : TypedStorage) (offset : Nat) (size : List Nat) (stride : List Int)
        (rg : Bool) (bh : BackwardHooks) (sc zp : List Rat) (axis : Int),
        ∃ t, rebuild_qtensor storage offset size stride
              (.perChannelData .per_channel_affine (.list sc) (.list zp) axis) rg bh = .ok t
          ∧ t.scalesVec = some (torch_tensor_of_list sc .float64 storage.device)
          ∧ t.zeroPointsVec = some (torch_tensor_of_list zp .int64 storage.device)
          ∧ (t.zeroPointsVec.map (fun v => v.dtype.isIntegral)) = some true)
    ∧ (∀ (storage : TypedStorage) (offset : Nat) (size : List Nat) (stride : List Int)
        (rg : Bool) (bh : BackwardHooks) (sc zp : List Rat) (axis : Int),
        ∃ t, rebuild_qtensor storage offset size stride
              (.perChannelData .per_channel_affine_float_qparams (.list sc) (.list zp) axis)
              rg bh = .ok t
          ∧ t.scalesVec = some (torch_tensor_of_list sc .float32 storage.device)
          ∧ t.zeroPointsVec = some (torch_tensor_of_list zp .float32 storage.device)
          ∧ (t.zeroPointsVec.map (fun v => v.dtype.isFloatingPoint)) = some true)
    ∧ (∀ (storage : TypedStorage) (offset : Nat) (size : List Nat) (stride : List Int)
        (rg : Bool) (bh : BackwardHooks) (qp : QuantizerParams),
        qp.scheme ≠ .per_tensor_affine →
        qp.scheme ≠ .per_channel_affine →
        qp.scheme ≠ .per_channel_affine_float_qparams →
        rebuild_qtensor storage offset size stride qp rg bh
          = .error (.runtimeError
              ("Can't deserialize quantized tensor with qscheme " ++ qp.scheme.pyName))) := by
  refine ⟨?_, ?_, ?_, ?_⟩
  · intro storage offset size stride rg bh scale zp
    exact ⟨_, rfl, rfl⟩
  · intro storage offset size stride rg bh sc zp axis
    exact ⟨_, rfl, rfl, rfl, rfl⟩
  · intro storage offset size stride rg bh sc zp axis
    exact ⟨_, rfl, rfl, rfl, rfl⟩
  · intro storage offset size stride rg bh qp h1 h2 h3
    rcases qp with ⟨s, scale, zp⟩ | ⟨s, scs, zps, ax⟩ <;> cases s <;>
      first
        | exact absurd rfl h1
        | exact absurd rfl h2
        | exact absurd rfl h3
        | rfl

/-- Witness for C4: a 3-tuple of quantizer params headed by the unsupported
per-tensor-symmetric tag fails with the unsupported-scheme RuntimeError. -/
theorem quantized_scheme_dispatch_witness :
    (QuantizerParams.scheme (.perTensorData .per_tensor_symmetric 1 0)
        ≠ QScheme.per_tensor_affine)
    ∧ (QuantizerParams.scheme (.perTensorData .per_tensor_symmetric 1 0)
        ≠ QScheme.per_channel_affine)
    ∧ (QuantizerParams.scheme (.perTensorData .per_tensor_symmetric 1 0)
        ≠ QScheme.per_channel_affine_float_qparams)
    ∧ rebuild_qtensor demoStorage 0 [2] [1] (.perTensorData .per_tensor_symmetric 1 0) false []
        = .error (.runtimeError
            ("Can't deserialize quantized tensor with qscheme "
              ++ QScheme.pyName (QuantizerParams.scheme (.perTensorData .per_tensor_symmetric 1 0)))) :=
  ⟨by decide, by decide, by decide,
   quantized_scheme_dispatch.2.2.2 demoStorage 0 [2] [1] false []
     (.perTensorData .per_tensor_symmetric 1 0) (by decide) (by decide) (by decide)⟩

/-- C5 counterexample: an exception class that exposes a truthy message field
but cannot be constructed with the composite message as its sole argument is
reraised through the message-field convention, not as the generic
RuntimeError the claim requires for every such kind. -/
theorem reraise_arity_fallback_counterexample :
    (ExcKind.acceptsSingleStringArg messageFieldTwoArgKind = false)
    ∧ ((ExceptionWrapper.mk messageFieldTwoArgKind "trace text" "in worker 1").reraise).kind
        ≠ RuntimeErrorKind := by
  exact ⟨rfl, by decide⟩

/-- C5 (amended): for every snapshot whose captured kind does not expose a
truthy message field and cannot be constructed with the composite message as
its sole argument, reraise raises the generic RuntimeError carrying the
composite message, with the construction-time secondary TypeError discarded
from the causal chain (no cause attached). -/
theorem reraise_arity_fallback (w : ExceptionWrapper)
    (hmf : w.exc_type.hasMessageField = false)
    (ha : w.exc_type.acceptsSingleStringArg = false) :
    w.reraise = { kind := RuntimeErrorKind, arg := .plain w.compositeMsg, cause := none } := by
  by_cases hk : w.exc_type = KeyErrorKind
  · rw [hk] at ha
    exact absurd ha (by decide)
  · simp [ExceptionWrapper.reraise, hk, hmf, raiseFromTry, constructException, ha]

/-- Witness for C5 (amended): a two-argument kind with no message field falls
back to the generic RuntimeError carrying the composite message. -/
theorem reraise_arity_fallback_witness :
    (ExcKind.hasMessageField twoArgKind = false)
    ∧ (ExcKind.acceptsSingleStringArg twoArgKind = false)
    ∧ (ExceptionWrapper.mk twoArgKind "trace text" "in worker 1").reraise
        = { kind := RuntimeErrorKind,
            arg := .plain (ExceptionWrapper.compositeMsg
              (.mk twoArgKind "trace text" "in worker 1")),
            cause := none } :=
  ⟨rfl, rfl, reraise_arity_fallback (.mk twoArgKind "trace text" "in worker 1") rfl rfl⟩

/-- C6: a snapshot captured from KeyError reraises with the composite message
wrapped in the KeyErrorMessage string subtype, whose quoting representation
is the string itself, so the multi-line trace renders as plain text rather
than through the extra quoting/escaping pass. -/
theorem keyerror_message_renders_plain (trace lbl : String) :
    ((ExceptionWrapper.mk KeyErrorKind trace lbl).reraise).kind = KeyErrorKind
    ∧ ((ExceptionWrapper.mk KeyErrorKind trace lbl).reraise).arg
        = PyStr.keyErrorMessage ((ExceptionWrapper.mk KeyErrorKind trace lbl).compositeMsg)
    ∧ keyErrorDisplay ((ExceptionWrapper.mk KeyErrorKind trace lbl).reraise).arg
        = (ExceptionWrapper.mk KeyErrorKind trace lbl).compositeMsg := by
  refine ⟨?_, ?_, ?_⟩ <;>
    simp [ExceptionWrapper.reraise, raiseFromTry, constructException,
      KeyErrorKind, keyErrorDisplay, PyStr.pyRepr]

/-- C8: rebuild_parameter_with_state replays the object-state blob onto the
parameter: a plain attribute map is applied key-by-key; a pair is split into
an attribute map and a slot map, each applied key-by-key; and a tuple-shaped
state whose length is not exactly 2 fails with the invalid-state
RuntimeError, with no attributes applied. -/
theorem parameter_state_replay :
    (∀ (data : Tensor) (rg : Bool) (bh : BackwardHooks) (d : AttrMap),
        rebuild_parameter_with_state data rg bh (.map d)
          = .ok (applyAttrMap { torch_nn_Parameter data rg with backward_hooks := bh } d))
    ∧ (∀ (data : Tensor) (rg : Bool) (bh : BackwardHooks) (d s : AttrMap),
        rebuild_parameter_with_state data rg bh (.tup [some d, some s])
          = .ok (applyAttrMap
              (applyAttrMap { torch_nn_Parameter data rg with backward_hooks := bh } d) s))
    ∧ (∀ (data : Tensor) (rg : Bool) (bh : BackwardHooks) (es : List (Option AttrMap)),
        es.length ≠ 2 →
        rebuild_parameter_with_state data rg bh (.tup es)
          = .error (.runtimeError ("Invalid serialized state: " ++ stateRepr (.tup es)))) := by
  refine ⟨?_, ?_, ?_⟩
  · intro data rg bh d
    cases d <;> rfl
  · intro data rg bh d s
    cases d <;> cases s <;> rfl
  · intro data rg bh es h
    rcases es with _ | ⟨a, _ | ⟨b, _ | ⟨c, rest⟩⟩⟩
    · rfl
    · rfl
    · exact absurd rfl h
    · rfl

/-- Witness for C8: an empty tuple state fails with the invalid-state
RuntimeError. -/
theorem parameter_state_replay_witness :
    (([] : List (Option AttrMap)).length ≠ 2)
    ∧ rebuild_parameter_with_state (torch_tensor_empty .float32 .cpu) false [] (.tup [])
        = .error (.runtimeError ("Invalid serialized state: " ++ stateRepr (.tup []))) :=
  ⟨by decide,
   parameter_state_replay.2.2 (torch_tensor_empty .float32 .cpu) false [] [] (by decide)⟩
